import Mathlib

set_option maxRecDepth 100000
set_option linter.unusedVariables false

/-!
Verification of the camera-based vital-sign estimation pipeline of
`src/backend/static/js/vitals-scanner.js` (class `VitalsScanner`).

Modelling conventions.

JavaScript numbers are modelled as exact rationals (`ℚ`).  `Math.round x`
is `round : ℚ → ℤ` (both are `⌊x + 1/2⌋`, ties towards `+∞`);
`Math.floor` is `Int.floor`.  In the signal-path estimators every
division reached by a theorem below has a nonzero denominator, so plain
`ℚ` suffices there.  The two raw-statistics estimators `estimateSpO2`
and `estimateTemperature` can reach `0/0` and `x/0` (empty buffer, zero
channel means), whose NaN and infinity results are observable; they are
therefore modelled over the explicit JavaScript value type `JSVal`
(rational, `±∞` or NaN) with ECMA-262 arithmetic.

`Math.sqrt` has no exact rational counterpart.  The source uses square
roots in exactly two ways:

* inside threshold comparisons `x > mean + c * stdDev` (peak detection).
  For `c ≥ 0` and `stdDev = √variance` this comparison is equivalent to
  `mean < x ∧ c^2 * variance < (x - mean)^2`, which is exact rational
  arithmetic.  The structure `SqrtExpr` records `mean + c * √variance`
  symbolically and `SqrtExpr.ltRat` decides the comparison this way, so
  peak detection below is executable and agrees with the source's
  real-arithmetic behaviour on every rational input.

* as the value `rmssd = √(mean of squared successive interval
  differences)` inside `estimateBloodPressure`.  There it is kept as an
  explicit parameter `rmssd`; all blood-pressure claims hold for every
  value of that parameter.
-/

/-- One captured frame: per-frame ROI channel averages
(`this.frames` entries `{r, g, b}`). -/
structure Frame where
  r : ℚ
  g : ℚ
  b : ℚ

/-- Source `calculateMean(arr)`: `arr.reduce((a,b) => a+b, 0) / arr.length`
(mean of the empty list is `0` here, `NaN` in JS; no claim depends on it). -/
def calculateMean (arr : List ℚ) : ℚ :=
  arr.sum / (arr.length : ℚ)

/-- Source `calculateVariance(arr)`: mean of squared deviations from the mean. -/
def calculateVariance (arr : List ℚ) : ℚ :=
  calculateMean (arr.map (fun x => (x - calculateMean arr) ^ 2))

/-- Source `calculateAC(signal)`: mean absolute deviation from the mean. -/
def calculateAC (signal : List ℚ) : ℚ :=
  calculateMean (signal.map (fun x => |x - calculateMean signal|))

/-- Source `calculateDC(signal)`: the mean. -/
def calculateDC (signal : List ℚ) : ℚ :=
  calculateMean signal

/-- Source `bandpassFilter(signal, lowFreq, highFreq, sampleRate)`:
`windowSize = Math.floor(sampleRate / lowFreq)`; for each index `i` it
averages `signal[j]` for `j` from `max(0, i - windowSize)` to
`min(signal.length - 1, i + windowSize)` and outputs
`signal[i] - average`.  The contiguous index range is rendered as a
`take`/`drop` slice; `highFreq` is accepted and ignored exactly as in
the source.  Natural subtraction `i - windowSize` is `max(0, i - windowSize)`. -/
def bandpassFilter (signal : List ℚ) (lowFreq highFreq sampleRate : ℚ) : List ℚ :=
  let windowSize : ℕ := (⌊sampleRate / lowFreq⌋).toNat
  (List.range signal.length).map (fun i =>
    let window := (signal.take (min (signal.length - 1) (i + windowSize) + 1)).drop
      (i - windowSize)
    signal.getD i 0 - window.sum / (window.length : ℚ))

/-- A threshold of the form `base + coeff * √radicand`, kept symbolic so
that comparisons against it are exact (see `SqrtExpr.ltRat`). -/
structure SqrtExpr where
  base : ℚ
  coeff : ℚ
  radicand : ℚ

/-- Decide `base + coeff * √radicand < x` for `coeff ≥ 0`, `radicand ≥ 0`:
equivalent to `base < x ∧ coeff^2 * radicand < (x - base)^2`
(`SqrtExpr.ltRat_iff` proves the equivalence against any exact square
root of the radicand). -/
def SqrtExpr.ltRat (t : SqrtExpr) (x : ℚ) : Bool :=
  decide (t.base < x) && decide (t.coeff ^ 2 * t.radicand < (x - t.base) ^ 2)

/-- The local-maximum-above-threshold test shared by `findPeaks` and
`findPeaksWithMinDistance`:
`signal[i] > signal[i-1] && signal[i] > signal[i+1] && signal[i] > threshold`.
Out-of-range reads default to `0`; every caller only evaluates it for
`1 ≤ i ≤ length - 2`. -/
def isPeakCandidate (signal : List ℚ) (threshold : SqrtExpr) (i : ℕ) : Bool :=
  decide (signal.getD (i - 1) 0 < signal.getD i 0) &&
  decide (signal.getD (i + 1) 0 < signal.getD i 0) &&
  threshold.ltRat (signal.getD i 0)

/-- Source `findPeaks(signal)`: `threshold = mean + stdDev * 0.5`; indices
`i` from `1` to `signal.length - 2` that are strict local maxima above
the threshold, in ascending order. -/
def findPeaks (signal : List ℚ) : List ℕ :=
  let threshold : SqrtExpr :=
    { base := calculateMean signal, coeff := 1 / 2, radicand := calculateVariance signal }
  (List.range' 1 (signal.length - 2)).filter (fun i => isPeakCandidate signal threshold i)

/-- Loop body of `findPeaksWithMinDistance`: walks the index list carrying
`lastPeakIndex : ℤ`; a candidate `i` is accepted when
`i - lastPeakIndex >= minDistance`, and acceptance updates `lastPeakIndex`. -/
def fpmdGo (signal : List ℚ) (threshold : SqrtExpr) (minDistance : ℕ) :
    List ℕ → ℤ → List ℕ
  | [], _ => []
  | i :: rest, lastPeakIndex =>
    if isPeakCandidate signal threshold i ∧ (minDistance : ℤ) ≤ (i : ℤ) - lastPeakIndex then
      i :: fpmdGo signal threshold minDistance rest (i : ℤ)
    else
      fpmdGo signal threshold minDistance rest lastPeakIndex

/-- Source `findPeaksWithMinDistance(signal, threshold, minDistance)`:
`lastPeakIndex` starts at `-minDistance` and the loop runs over indices
`1` to `signal.length - 2`.  All call sites pass a nonnegative
`minDistance` (`Math.floor(frameRate * 1.5)`), hence `minDistance : ℕ`. -/
def findPeaksWithMinDistance (signal : List ℚ) (threshold : SqrtExpr)
    (minDistance : ℕ) : List ℕ :=
  fpmdGo signal threshold minDistance (List.range' 1 (signal.length - 2))
    (-(minDistance : ℤ))

/-- Successive differences `peaks[i] - peaks[i-1]` as rationals (the
`intervals` arrays built in `detectHeartRate`, `detectRespiratoryRate`
and `estimateBloodPressure`). -/
def pairDiffs (peaks : List ℕ) : List ℚ :=
  (peaks.zip peaks.tail).map (fun p => (p.2 : ℚ) - (p.1 : ℚ))

/-- Source `detectHeartRate(signal)`: band-pass the green signal at
`0.7`–`4.0` Hz, find simple peaks, require at least 2, convert the mean
inter-peak interval to BPM and accept only `40 ≤ bpm ≤ 180`. -/
def detectHeartRate (signal : List ℚ) (frameRate : ℚ) : Option ℤ :=
  let filtered := bandpassFilter signal (7 / 10) 4 frameRate
  let peaks := findPeaks filtered
  if peaks.length < 2 then none
  else
    let intervals := pairDiffs peaks
    let avgInterval := calculateMean intervals
    let bpm := round ((60 * frameRate) / avgInterval)
    if 40 ≤ bpm ∧ bpm ≤ 180 then some bpm else none

/-- JavaScript double values reachable in `estimateSpO2` and
`estimateTemperature`: an exact rational, one of the two infinities, or
NaN.  Signed zero is not distinguished: no reachable operation makes
`-0` observable here (the only zero denominators are exact `+0`
sums and means). -/
inductive JSVal where
  | num : ℚ → JSVal
  | posInf : JSVal
  | negInf : JSVal
  | nan : JSVal
deriving DecidableEq

/-- ECMA-262 division: NaN propagates; `±∞ / ±∞` is NaN; `±∞ / q` is a
signed infinity; `q / ±∞` is zero; `0 / 0` is NaN and `q / 0` a signed
infinity for `q ≠ 0`. -/
def jsDiv : JSVal → JSVal → JSVal
  | JSVal.nan, _ => JSVal.nan
  | _, JSVal.nan => JSVal.nan
  | JSVal.posInf, JSVal.posInf => JSVal.nan
  | JSVal.posInf, JSVal.negInf => JSVal.nan
  | JSVal.negInf, JSVal.posInf => JSVal.nan
  | JSVal.negInf, JSVal.negInf => JSVal.nan
  | JSVal.posInf, JSVal.num q => if q < 0 then JSVal.negInf else JSVal.posInf
  | JSVal.negInf, JSVal.num q => if q < 0 then JSVal.posInf else JSVal.negInf
  | JSVal.num _, JSVal.posInf => JSVal.num 0
  | JSVal.num _, JSVal.negInf => JSVal.num 0
  | JSVal.num a, JSVal.num b =>
    if b = 0 then (if a = 0 then JSVal.nan else if 0 < a then JSVal.posInf else JSVal.negInf)
    else JSVal.num (a / b)

/-- ECMA-262 addition: NaN propagates; `+∞ + -∞` is NaN; an infinity
absorbs a finite operand. -/
def jsAdd : JSVal → JSVal → JSVal
  | JSVal.nan, _ => JSVal.nan
  | _, JSVal.nan => JSVal.nan
  | JSVal.num a, JSVal.num b => JSVal.num (a + b)
  | JSVal.num _, JSVal.posInf => JSVal.posInf
  | JSVal.num _, JSVal.negInf => JSVal.negInf
  | JSVal.posInf, JSVal.num _ => JSVal.posInf
  | JSVal.negInf, JSVal.num _ => JSVal.negInf
  | JSVal.posInf, JSVal.posInf => JSVal.posInf
  | JSVal.posInf, JSVal.negInf => JSVal.nan
  | JSVal.negInf, JSVal.posInf => JSVal.nan
  | JSVal.negInf, JSVal.negInf => JSVal.negInf

/-- ECMA-262 subtraction: NaN propagates; `∞ - ∞` of equal signs is NaN;
an infinity absorbs a finite operand. -/
def jsSub : JSVal → JSVal → JSVal
  | JSVal.nan, _ => JSVal.nan
  | _, JSVal.nan => JSVal.nan
  | JSVal.num a, JSVal.num b => JSVal.num (a - b)
  | JSVal.num _, JSVal.posInf => JSVal.negInf
  | JSVal.num _, JSVal.negInf => JSVal.posInf
  | JSVal.posInf, JSVal.num _ => JSVal.posInf
  | JSVal.negInf, JSVal.num _ => JSVal.negInf
  | JSVal.posInf, JSVal.posInf => JSVal.nan
  | JSVal.posInf, JSVal.negInf => JSVal.posInf
  | JSVal.negInf, JSVal.posInf => JSVal.negInf
  | JSVal.negInf, JSVal.negInf => JSVal.nan

/-- ECMA-262 multiplication: NaN propagates; `0 * ±∞` is NaN; otherwise
infinities multiply by sign. -/
def jsMul : JSVal → JSVal → JSVal
  | JSVal.nan, _ => JSVal.nan
  | _, JSVal.nan => JSVal.nan
  | JSVal.num a, JSVal.num b => JSVal.num (a * b)
  | JSVal.num a, JSVal.posInf =>
    if a = 0 then JSVal.nan else if 0 < a then JSVal.posInf else JSVal.negInf
  | JSVal.num a, JSVal.negInf =>
    if a = 0 then JSVal.nan else if 0 < a then JSVal.negInf else JSVal.posInf
  | JSVal.posInf, JSVal.num b =>
    if b = 0 then JSVal.nan else if 0 < b then JSVal.posInf else JSVal.negInf
  | JSVal.negInf, JSVal.num b =>
    if b = 0 then JSVal.nan else if 0 < b then JSVal.negInf else JSVal.posInf
  | JSVal.posInf, JSVal.posInf => JSVal.posInf
  | JSVal.posInf, JSVal.negInf => JSVal.negInf
  | JSVal.negInf, JSVal.posInf => JSVal.negInf
  | JSVal.negInf, JSVal.negInf => JSVal.posInf

/-- JavaScript mean `arr.reduce((a, b) => a + b, 0) / arr.length`: the
exact rational mean on a nonempty array, NaN (`0/0`) on the empty one. -/
def jsMean (arr : List ℚ) : JSVal :=
  jsDiv (JSVal.num arr.sum) (JSVal.num (arr.length : ℚ))

/-- Source `calculateAC(signal)` under JavaScript semantics: mean
absolute deviation from the mean.  On the empty array the mean is NaN,
but the deviations array built from it is also empty, so the result is
again NaN — rendered by the fallthrough arm. -/
def jsCalculateAC (signal : List ℚ) : JSVal :=
  match jsMean signal with
  | JSVal.num m => jsMean (signal.map (fun x => |x - m|))
  | _ => JSVal.nan

/-- Source `estimateSpO2()` under JavaScript number semantics: the
`=== 0` DC test is false for NaN, so the empty buffer falls through;
`Math.round` keeps NaN and infinities, which then fail the
`>= 85 && <= 100` band test and yield the default `97`.  When every
quantity is finite this is exactly the rational computation of claim
C3. -/
def estimateSpO2 (frames : List Frame) : Option ℤ :=
  let redSignal := frames.map Frame.r
  let greenSignal := frames.map Frame.g
  let redAC := jsCalculateAC redSignal
  let redDC := jsMean redSignal
  let greenAC := jsCalculateAC greenSignal
  let greenDC := jsMean greenSignal
  if redDC = JSVal.num 0 ∨ greenDC = JSVal.num 0 then none
  else
    let rOverG := jsDiv (jsDiv redAC redDC) (jsDiv greenAC greenDC)
    match jsSub (JSVal.num 110) (jsMul (JSVal.num 25) rOverG) with
    | JSVal.num q => if 85 ≤ round q ∧ round q ≤ 100 then some (round q) else some 97
    | _ => some 97

/-- Source `detectRespiratoryRate(signal)`: band-pass at `0.2`–`0.5` Hz,
threshold `mean + stdDev * 1.5`, minimum peak distance
`Math.floor(frameRate * 1.5)`; fewer than 3 peaks yields the default
`14`; intervals outside the strict band
`(avg * 0.5, avg * 1.5)` are dropped; fewer than 2 survivors yields
`14`; otherwise the mean surviving interval is converted to breaths/min
and saturated into `[8, 25]`. -/
def detectRespiratoryRate (signal : List ℚ) (frameRate : ℚ) : ℤ :=
  let lowFreqFiltered := bandpassFilter signal (1 / 5) (1 / 2) frameRate
  let threshold : SqrtExpr :=
    { base := calculateMean lowFreqFiltered, coeff := 3 / 2,
      radicand := calculateVariance lowFreqFiltered }
  let minPeakDistance := (⌊frameRate * (3 / 2)⌋).toNat
  let peaks := findPeaksWithMinDistance lowFreqFiltered threshold minPeakDistance
  if peaks.length < 3 then 14
  else
    let intervals := pairDiffs peaks
    let avgInterval := calculateMean intervals
    let filteredIntervals := intervals.filter (fun iv =>
      decide (avgInterval * (1 / 2) < iv) && decide (iv < avgInterval * (3 / 2)))
    if filteredIntervals.length < 2 then 14
    else
      let finalAvgInterval := calculateMean filteredIntervals
      let breathsPerMin := round ((60 * frameRate) / finalAvgInterval)
      if breathsPerMin < 8 then 8
      else if breathsPerMin > 25 then 25
      else breathsPerMin

/-- Source `parseFloat(x.toFixed(1))`: rounds a finite value to one
decimal digit (ties towards the larger value, like `Math.round` on
tenths); NaN and the infinities round-trip through their string forms
unchanged. -/
def jsToFixed1 : JSVal → JSVal
  | JSVal.num q => JSVal.num ((round (q * 10) : ℚ) / 10)
  | v => v

/-- Source `Math.min(c, x)` with a finite first argument: NaN
propagates; otherwise the smaller value. -/
def jsMinC (c : ℚ) : JSVal → JSVal
  | JSVal.num q => JSVal.num (min c q)
  | JSVal.posInf => JSVal.num c
  | JSVal.negInf => JSVal.negInf
  | JSVal.nan => JSVal.nan

/-- Source `Math.max(c, x)` with a finite first argument: NaN
propagates; otherwise the larger value. -/
def jsMaxC (c : ℚ) : JSVal → JSVal
  | JSVal.num q => JSVal.num (max c q)
  | JSVal.posInf => JSVal.posInf
  | JSVal.negInf => JSVal.num c
  | JSVal.nan => JSVal.nan

/-- Source `estimateTemperature()` under JavaScript number semantics:
red/green ratio mapped to Celsius, rounded to one decimal
(`toFixed(1)`) and clamped to `[35.5, 38.5]`.  On the empty buffer the
channel means are `0/0 = NaN` and NaN propagates through `toFixed`,
`Math.min` and `Math.max` to a NaN result; a zero green mean with a
nonzero red mean gives an infinite ratio that the clamp maps to a
boundary value. -/
def estimateTemperature (frames : List Frame) : JSVal :=
  let avgRed := jsMean (frames.map Frame.r)
  let avgGreen := jsMean (frames.map Frame.g)
  let redGreen := jsDiv avgRed avgGreen
  let tempCelsius := jsAdd (JSVal.num 36) (jsMul (jsSub redGreen (JSVal.num 1)) (JSVal.num 2))
  jsMaxC (71 / 2) (jsMinC (77 / 2) (jsToFixed1 tempCelsius))

/-- Rendering of `Math.max(...xs)` over a nonempty array; `0` for the
empty list (unreached: callers pass peak-value lists of length ≥ 3). -/
def listMax : List ℚ → ℚ
  | [] => 0
  | x :: xs => xs.foldl max x

/-- Rendering of `Math.min(...xs)` over a nonempty array; `0` for the
empty list (unreached). -/
def listMin : List ℚ → ℚ
  | [] => 0
  | x :: xs => xs.foldl min x

/-- Squared successive differences of the interval list (source
`squaredDiffs` in `estimateBloodPressure`); the source's `rmssd` is the
square root of their mean and enters `estimateBloodPressure` as the
parameter `rmssd`. -/
def bpSquaredDiffs (intervals : List ℚ) : List ℚ :=
  (intervals.zip intervals.tail).map (fun p => (p.2 - p.1) ^ 2)

/-- Source `estimateBloodPressure(signal)`.  `rmssd` stands for the
square root `Math.sqrt(mean of squaredDiffs)` computed internally;
`rand1` and `rand2` are the two `Math.random()` draws (jitter and
diastolic ratio).  Returns `(systolic, diastolic)`. -/
def estimateBloodPressure (signal : List ℚ) (rmssd rand1 rand2 frameRate : ℚ) :
    Option ℤ × Option ℤ :=
  let filtered := bandpassFilter signal (7 / 10) 4 frameRate
  let peaks := findPeaks filtered
  if peaks.length < 3 then (none, none)
  else
    let intervals := pairDiffs peaks
    let avgInterval := calculateMean intervals
    let intervalVariance := calculateVariance intervals
    let heartRate := round ((60 * frameRate) / avgInterval)
    let peakValues := peaks.map (fun idx => filtered.getD idx 0)
    let avgPeakAmplitude := calculateMean peakValues
    let maxAmplitude := listMax peakValues
    let minAmplitude := listMin peakValues
    let normalizedAmplitude :=
      if maxAmplitude > minAmplitude then
        (avgPeakAmplitude - minAmplitude) / (maxAmplitude - minAmplitude)
      else (1 / 2 : ℚ)
    let hrFactor := max (-15) (min 15 (((heartRate : ℚ) - 70) * (3 / 10)))
    let hrvFactor := max (-10) (min 10 ((30 - rmssd) * (1 / 5)))
    let amplitudeFactor := (normalizedAmplitude - 1 / 2) * 10
    let varianceFactor := max (-5) (min 5 (intervalVariance * 3))
    let randomFactor := (rand1 - 1 / 2) * 6
    let systolic := round ((120 : ℚ) + hrFactor + hrvFactor + amplitudeFactor +
      varianceFactor + randomFactor)
    let diaFrac := (13 / 20 : ℚ) + (rand2 - 1 / 2) * (1 / 10)
    let diastolic := round ((systolic : ℚ) * diaFrac)
    let finalSystolic := max 95 (min 145 systolic)
    let finalDiastolic := max 60 (min 95 diastolic)
    let properDiastolic := min finalDiastolic (finalSystolic - 25)
    (some finalSystolic, some properDiastolic)

/-- Live estimator outputs as read by `calculateHealthScore`
(`this.results`; blood pressure split into its two components). -/
structure VitalResults where
  heartRate : Option ℚ
  spo2 : Option ℚ
  respiratoryRate : Option ℚ
  temperature : Option ℚ
  systolic : Option ℚ
  diastolic : Option ℚ

/-- Historical fallback record (`this.historicalData`); absent fields are
`none`. -/
structure HistoricalVitals where
  heart_rate : Option ℚ
  spo2 : Option ℚ
  respiratory_rate : Option ℚ
  temperature : Option ℚ
  blood_pressure_systolic : Option ℚ
  blood_pressure_diastolic : Option ℚ

/-- JavaScript truthiness of a possibly-null number: `null`, `undefined`
and `0` are falsy. -/
def truthy : Option ℚ → Bool
  | none => false
  | some v => decide (v ≠ 0)

/-- The fallback step `if (x === null && hist.field) x = hist.field`
performed for each vital in `calculateHealthScore`. -/
def resolveVital (live hist : Option ℚ) : Option ℚ :=
  if live = none ∧ truthy hist then hist else live

/-- The guarded push `if (x) scores.push(subScore(x))`: contributes the
sub-score only when the resolved value is truthy. -/
def contrib (x : Option ℚ) (sub : ℚ → ℤ) : List ℤ :=
  match x with
  | some v => if v = 0 then [] else [sub v]
  | none => []

/-- Heart-rate sub-score bands of `calculateHealthScore`. -/
def hrSubScore (hr : ℚ) : ℤ :=
  if 60 ≤ hr ∧ hr ≤ 100 then 100
  else if (50 ≤ hr ∧ hr < 60) ∨ (100 < hr ∧ hr ≤ 110) then 80
  else if (40 ≤ hr ∧ hr < 50) ∨ (110 < hr ∧ hr ≤ 120) then 60
  else 40

/-- SpO2 sub-score bands. -/
def spo2SubScore (s : ℚ) : ℤ :=
  if 95 ≤ s then 100
  else if 90 ≤ s ∧ s < 95 then 80
  else if 85 ≤ s ∧ s < 90 then 60
  else 40

/-- Respiratory-rate sub-score bands. -/
def rrSubScore (rr : ℚ) : ℤ :=
  if 12 ≤ rr ∧ rr ≤ 20 then 100
  else if (8 ≤ rr ∧ rr < 12) ∨ (20 < rr ∧ rr ≤ 25) then 80
  else 60

/-- Temperature sub-score bands (`36.1`, `37.5`, `35.5`, `38.3` as
rationals). -/
def tempSubScore (t : ℚ) : ℤ :=
  if 361 / 10 ≤ t ∧ t ≤ 75 / 2 then 100
  else if (71 / 2 ≤ t ∧ t < 361 / 10) ∨ (75 / 2 < t ∧ t ≤ 383 / 10) then 80
  else 60

/-- Blood-pressure sub-score bands, including the source's trailing
`else scores.push(100)`. -/
def bpSubScore (sys dia : ℚ) : ℤ :=
  if 90 ≤ sys ∧ sys ≤ 120 ∧ 60 ≤ dia ∧ dia ≤ 80 then 100
  else if (120 < sys ∧ sys ≤ 130) ∨ (80 < dia ∧ dia ≤ 85) then 85
  else if (130 < sys ∧ sys ≤ 140) ∨ (85 < dia ∧ dia ≤ 90) then 70
  else if 140 < sys ∨ 90 < dia then 50
  else if sys < 90 ∨ dia < 60 then 60
  else 100

/-- The blood-pressure push `if (sys && dia) scores.push(...)`: requires
both resolved components truthy. -/
def bpContrib (sys dia : Option ℚ) : List ℤ :=
  match sys, dia with
  | some s, some d => if s = 0 ∨ d = 0 then [] else [bpSubScore s d]
  | _, _ => []

/-- The `scores` array accumulated by `calculateHealthScore`, in source
push order. -/
def scoresList (res : VitalResults) (hist : HistoricalVitals) : List ℤ :=
  contrib (resolveVital res.heartRate hist.heart_rate) hrSubScore ++
  contrib (resolveVital res.spo2 hist.spo2) spo2SubScore ++
  contrib (resolveVital res.respiratoryRate hist.respiratory_rate) rrSubScore ++
  contrib (resolveVital res.temperature hist.temperature) tempSubScore ++
  bpContrib (resolveVital res.systolic hist.blood_pressure_systolic)
    (resolveVital res.diastolic hist.blood_pressure_diastolic)

/-- Source `calculateHealthScore()`: `0` when no field contributed,
otherwise the rounded mean of the collected sub-scores. -/
def calculateHealthScore (res : VitalResults) (hist : HistoricalVitals) : ℤ :=
  let scores := scoresList res hist
  if scores.length = 0 then 0
  else round ((scores.sum : ℚ) / (scores.length : ℚ))

/-- The all-fields-null live record of claim C5. -/
def allNullResults : VitalResults :=
  { heartRate := none, spo2 := none, respiratoryRate := none,
    temperature := none, systolic := none, diastolic := none }

/-- The ideal-values live record of claim C5
(HR 72, SpO2 98, RR 16, Temp 36.8, BP 110/75). -/
def idealResults : VitalResults :=
  { heartRate := some 72, spo2 := some 98, respiratoryRate := some 16,
    temperature := some (184 / 5), systolic := some 110, diastolic := some 75 }

/-- The empty historical record (`this.historicalData = {}`). -/
def emptyHistorical : HistoricalVitals :=
  { heart_rate := none, spo2 := none, respiratory_rate := none,
    temperature := none, blood_pressure_systolic := none,
    blood_pressure_diastolic := none }

/-- Centered moving average at index `i` with the given half-width,
window clamped to the series bounds, as worded in the specification of
the Filter component. -/
def movingAverageAt (signal : List ℚ) (halfWidth i : ℕ) : ℚ :=
  let lo := i - halfWidth
  let hi := min (signal.length - 1) (i + halfWidth)
  calculateMean ((List.range' lo (hi + 1 - lo)).map (fun j => signal.getD j 0))

/-- Filter as claim C6 words it: half-width `round(sampleRateHz / lowHz)`. -/
def filterClaimRound (signal : List ℚ) (lowFreq sampleRate : ℚ) : List ℚ :=
  let halfWidth := (round (sampleRate / lowFreq)).toNat
  (List.range signal.length).map (fun i =>
    signal.getD i 0 - movingAverageAt signal halfWidth i)

/-- Filter as the amended claim words it: half-width
`floor(sampleRateHz / lowHz)`, matching the source's `Math.floor`. -/
def filterSpecFloor (signal : List ℚ) (lowFreq sampleRate : ℚ) : List ℚ :=
  let halfWidth := (⌊sampleRate / lowFreq⌋).toNat
  (List.range signal.length).map (fun i =>
    signal.getD i 0 - movingAverageAt signal halfWidth i)

/-- Respiratory-rate estimator as claim C2 words it: intervals outside
the closed band `[avg * 0.5, avg * 1.5]` are discarded (boundary
intervals kept), and the final value is clamped into `[8, 25]`. -/
def detectRespiratoryRate_claimed (signal : List ℚ) (frameRate : ℚ) : ℤ :=
  let lowFreqFiltered := bandpassFilter signal (1 / 5) (1 / 2) frameRate
  let threshold : SqrtExpr :=
    { base := calculateMean lowFreqFiltered, coeff := 3 / 2,
      radicand := calculateVariance lowFreqFiltered }
  let minPeakDistance := (⌊frameRate * (3 / 2)⌋).toNat
  let peaks := findPeaksWithMinDistance lowFreqFiltered threshold minPeakDistance
  if peaks.length < 3 then 14
  else
    let intervals := pairDiffs peaks
    let avgInterval := calculateMean intervals
    let keptIntervals := intervals.filter (fun iv =>
      decide (avgInterval * (1 / 2) ≤ iv) && decide (iv ≤ avgInterval * (3 / 2)))
    if keptIntervals.length < 2 then 14
    else min 25 (max 8 (round ((60 * frameRate) / calculateMean keptIntervals)))

/-- Respiratory-rate estimator as the amended claim C2 words it: only
intervals strictly inside `(avg * 0.5, avg * 1.5)` are kept (boundary
intervals discarded), the rest as in the claim. -/
def detectRespiratoryRate_amended (signal : List ℚ) (frameRate : ℚ) : ℤ :=
  let lowFreqFiltered := bandpassFilter signal (1 / 5) (1 / 2) frameRate
  let threshold : SqrtExpr :=
    { base := calculateMean lowFreqFiltered, coeff := 3 / 2,
      radicand := calculateVariance lowFreqFiltered }
  let minPeakDistance := (⌊frameRate * (3 / 2)⌋).toNat
  let peaks := findPeaksWithMinDistance lowFreqFiltered threshold minPeakDistance
  if peaks.length < 3 then 14
  else
    let intervals := pairDiffs peaks
    let avgInterval := calculateMean intervals
    let keptIntervals := intervals.filter (fun iv =>
      decide (avgInterval * (1 / 2) < iv) && decide (iv < avgInterval * (3 / 2)))
    if keptIntervals.length < 2 then 14
    else min 25 (max 8 (round ((60 * frameRate) / calculateMean keptIntervals)))

/-- Concrete input refuting claims C2's boundary reading: zeros with unit
spikes at indices 1, 46 and 181 over 183 samples at 30 Hz.  Detected
breathing peaks are exactly `[1, 46, 181]`, giving intervals `[45, 135]`
whose mean is `90` — both intervals sit exactly on the outlier
boundaries `0.5 * 90` and `1.5 * 90`. -/
def sigBoundary : List ℚ :=
  (List.range 183).map (fun i => if i = 1 ∨ i = 46 ∨ i = 181 then (1 : ℚ) else 0)

/-- Concrete signal whose band-pass filtered form has simple peaks at
indices 1, 3 and 5 (witness input). -/
def sigPeaks8 : List ℚ := [0, 4, 0, 4, 0, 4, 0, 4]

/-- Concrete signal giving exactly two detected peaks at 2 Hz, hence a
heart-rate reading of 60 BPM (witness input). -/
def sigPeaks5 : List ℚ := [0, 4, 0, 4, 0]

/-- Single frame with nonzero red and green means (witness input). -/
def frameRG : Frame := { r := 2, g := 1, b := 0 }

/-- Live results with every field present but equal to 0 (witness input
for the truthiness claim). -/
def zeroResults : VitalResults :=
  { heartRate := some 0, spo2 := some 0, respiratoryRate := some 0,
    temperature := some 0, systolic := some 0, diastolic := some 0 }

/-- Historical record with every field present but equal to 0 (witness
input for the truthiness claim). -/
def zeroHistorical : HistoricalVitals :=
  { heart_rate := some 0, spo2 := some 0, respiratory_rate := some 0,
    temperature := some 0, blood_pressure_systolic := some 0,
    blood_pressure_diastolic := some 0 }

theorem SqrtExpr.ltRat_iff (m c v x s : ℚ) (hc : 0 ≤ c) (hs : 0 ≤ s)
    (hsv : s * s = v) :
    SqrtExpr.ltRat ⟨m, c, v⟩ x = true ↔ m + c * s < x := by
  unfold SqrtExpr.ltRat
  simp only [Bool.and_eq_true, decide_eq_true_eq]
  have hcs : 0 ≤ c * s := mul_nonneg hc hs
  have hpow : (c * s) ^ 2 = c ^ 2 * v := by rw [← hsv]; ring
  constructor
  · rintro ⟨h1, h2⟩
    have hsq : (c * s) ^ 2 < (x - m) ^ 2 := by rw [hpow]; exact h2
    have := lt_of_pow_lt_pow_left₀ 2 (by linarith) hsq
    linarith
  · intro h
    refine ⟨by linarith, ?_⟩
    rw [← hpow]
    exact pow_lt_pow_left₀ (by linarith) hcs (by norm_num)

theorem take_drop_eq_map_range' (l : List ℚ) (lo cnt : ℕ) (h : lo + cnt ≤ l.length) :
    (l.take (lo + cnt)).drop lo = (List.range' lo cnt).map (fun j => l.getD j 0) := by
  apply List.ext_getElem
  · simp only [List.length_drop, List.length_take, List.length_map, List.length_range']
    omega
  · intro k h1 h2
    have hk : k < cnt := by
      simp only [List.length_drop, List.length_take] at h1
      omega
    have hlk : lo + k < l.length := by omega
    rw [List.getElem_drop, List.getElem_take, List.getElem_map, List.getElem_range',
      List.getD_eq_getElem l 0 (by omega : lo + 1 * k < l.length)]
    congr 1
    omega

theorem bandpassFilter_length (signal : List ℚ) (lowFreq highFreq sampleRate : ℚ) :
    (bandpassFilter signal lowFreq highFreq sampleRate).length = signal.length := by
  simp [bandpassFilter]

theorem range'_sorted_lt (s n : ℕ) : List.Pairwise (· < ·) (List.range' s n) := by
  induction n generalizing s with
  | zero => simp
  | succ n ih =>
    rw [List.range'_succ]
    exact List.Pairwise.cons
      (fun m hm => (List.mem_range'_1.mp hm).1.trans_lt' (by omega)) (ih (s + 1))

theorem fpmdGo_head? (signal : List ℚ) (threshold : SqrtExpr) (minDistance : ℕ) :
    ∀ l : List ℕ,
      (fpmdGo signal threshold minDistance l (-(minDistance : ℤ))).head? =
        (l.filter (fun i => isPeakCandidate signal threshold i)).head? := by
  intro l
  induction l with
  | nil => rfl
  | cons i rest ih =>
    rw [fpmdGo, List.filter_cons]
    by_cases hc : isPeakCandidate signal threshold i = true
    · rw [if_pos ⟨hc, by omega⟩, hc]
      simp
    · rw [if_neg (by tauto), ih]
      simp [hc]

theorem fpmdGo_chain (signal : List ℚ) (threshold : SqrtExpr) (minDistance : ℕ) :
    ∀ (l : List ℕ) (last : ℤ),
      List.Chain' (fun a b => a + minDistance ≤ b)
        (fpmdGo signal threshold minDistance l last) ∧
      ∀ x ∈ (fpmdGo signal threshold minDistance l last).head?,
        last + minDistance ≤ (x : ℤ) := by
  intro l
  induction l with
  | nil => exact fun last => ⟨List.chain'_nil, by simp [fpmdGo]⟩
  | cons i rest ih =>
    intro last
    rw [fpmdGo]
    split
    next h =>
      refine ⟨List.chain'_cons'.mpr ⟨?_, (ih (i : ℤ)).1⟩, ?_⟩
      · intro y hy
        have := (ih (i : ℤ)).2 y hy
        omega
      · intro x hx
        simp only [List.head?_cons, Option.mem_def, Option.some.injEq] at hx
        subst hx
        omega
    next h => exact ih last

theorem hrSubScore_bounds (v : ℚ) : 40 ≤ hrSubScore v ∧ hrSubScore v ≤ 100 := by
  unfold hrSubScore; split_ifs <;> norm_num

theorem spo2SubScore_bounds (v : ℚ) : 40 ≤ spo2SubScore v ∧ spo2SubScore v ≤ 100 := by
  unfold spo2SubScore; split_ifs <;> norm_num

theorem rrSubScore_bounds (v : ℚ) : 40 ≤ rrSubScore v ∧ rrSubScore v ≤ 100 := by
  unfold rrSubScore; split_ifs <;> norm_num

theorem tempSubScore_bounds (v : ℚ) : 40 ≤ tempSubScore v ∧ tempSubScore v ≤ 100 := by
  unfold tempSubScore; split_ifs <;> norm_num

theorem bpSubScore_bounds (s d : ℚ) : 40 ≤ bpSubScore s d ∧ bpSubScore s d ≤ 100 := by
  unfold bpSubScore; split_ifs <;> norm_num

theorem contrib_mem {o : Option ℚ} {sub : ℚ → ℤ} {x : ℤ} (hx : x ∈ contrib o sub) :
    ∃ v, x = sub v := by
  match o with
  | none => simp [contrib] at hx
  | some v =>
    by_cases h : v = 0
    · simp [contrib, h] at hx
    · simp [contrib, h] at hx
      exact ⟨v, hx⟩

theorem bpContrib_mem {sys dia : Option ℚ} {x : ℤ} (hx : x ∈ bpContrib sys dia) :
    ∃ s d, x = bpSubScore s d := by
  match sys, dia with
  | none, _ => simp [bpContrib] at hx
  | some s, none => simp [bpContrib] at hx
  | some s, some d =>
    by_cases h : s = 0 ∨ d = 0
    · simp [bpContrib, if_pos h] at hx
    · simp [bpContrib, if_neg h] at hx
      exact ⟨s, d, hx⟩

theorem scoresList_bounds (res : VitalResults) (hist : HistoricalVitals) :
    ∀ x ∈ scoresList res hist, 40 ≤ x ∧ x ≤ 100 := by
  intro x hx
  unfold scoresList at hx
  simp only [List.mem_append] at hx
  rcases hx with ((((h | h) | h) | h) | h)
  · obtain ⟨v, rfl⟩ := contrib_mem h; exact hrSubScore_bounds v
  · obtain ⟨v, rfl⟩ := contrib_mem h; exact spo2SubScore_bounds v
  · obtain ⟨v, rfl⟩ := contrib_mem h; exact rrSubScore_bounds v
  · obtain ⟨v, rfl⟩ := contrib_mem h; exact tempSubScore_bounds v
  · obtain ⟨s, d, rfl⟩ := bpContrib_mem h; exact bpSubScore_bounds s d

theorem calculateHealthScore_bounds (res : VitalResults) (hist : HistoricalVitals) :
    0 ≤ calculateHealthScore res hist ∧ calculateHealthScore res hist ≤ 100 := by
  unfold calculateHealthScore
  by_cases hempty : (scoresList res hist).length = 0
  · simp [hempty]
  · rw [if_neg hempty]
    have hnon : 0 < (scoresList res hist).length := Nat.pos_of_ne_zero hempty
    have hbl : ∀ x ∈ scoresList res hist, (40 : ℤ) ≤ x :=
      fun x hx => (scoresList_bounds res hist x hx).1
    have hbu : ∀ x ∈ scoresList res hist, x ≤ (100 : ℤ) :=
      fun x hx => (scoresList_bounds res hist x hx).2
    have hsum_u := List.sum_le_card_nsmul _ _ hbu
    have hsum_l := List.card_nsmul_le_sum _ _ hbl
    rw [nsmul_eq_mul] at hsum_u hsum_l
    have hlen : (0 : ℚ) < ((scoresList res hist).length : ℚ) := by exact_mod_cast hnon
    have hq_u : ((scoresList res hist).sum : ℚ) / ((scoresList res hist).length : ℚ) ≤ 100 := by
      rw [div_le_iff₀ hlen]
      exact_mod_cast hsum_u.trans_eq (by push_cast; ring)
    have hq_l : (40 : ℚ) ≤ ((scoresList res hist).sum : ℚ) / ((scoresList res hist).length : ℚ) := by
      rw [le_div_iff₀ hlen]
      exact_mod_cast le_of_eq_of_le (by push_cast; ring) hsum_l
    constructor
    · have h40 : (40 : ℤ) ≤ round (((scoresList res hist).sum : ℚ) / ((scoresList res hist).length : ℚ)) := by
        have hr : round ((40 : ℚ)) ≤ round (((scoresList res hist).sum : ℚ) / ((scoresList res hist).length : ℚ)) := by
          rw [round_eq, round_eq]
          exact Int.floor_le_floor (by linarith)
        have h40r : round ((40 : ℚ)) = 40 := by
          rw [show ((40 : ℚ)) = ((40 : ℤ) : ℚ) by norm_num, round_intCast]
        omega
      omega
    · have hr : round (((scoresList res hist).sum : ℚ) / ((scoresList res hist).length : ℚ)) ≤ round ((100 : ℚ)) := by
        rw [round_eq, round_eq]
        exact Int.floor_le_floor (by linarith)
      have h100r : round ((100 : ℚ)) = 100 := by
        rw [show ((100 : ℚ)) = ((100 : ℤ) : ℚ) by norm_num, round_intCast]
      omega

/-- C1: with at least 3 detected peaks, `estimateBloodPressure` returns
integers with systolic in `[95, 145]`, diastolic in `[60, 95]` and
`diastolic ≤ systolic - 25`, for every value of the internal `rmssd`
square root and of the two `Math.random()` draws; with fewer than 3
peaks it returns `(none, none)`. -/
theorem estimateBloodPressure_spec (signal : List ℚ) (rmssd rand1 rand2 frameRate : ℚ) :
    (3 ≤ (findPeaks (bandpassFilter signal (7 / 10) 4 frameRate)).length →
      ∃ s d, estimateBloodPressure signal rmssd rand1 rand2 frameRate = (some s, some d) ∧
        95 ≤ s ∧ s ≤ 145 ∧ 60 ≤ d ∧ d ≤ 95 ∧ d ≤ s - 25) ∧
    ((findPeaks (bandpassFilter signal (7 / 10) 4 frameRate)).length < 3 →
      estimateBloodPressure signal rmssd rand1 rand2 frameRate = (none, none)) := by
  simp only [estimateBloodPressure]
  constructor
  · intro h3
    rw [if_neg (by omega)]
    exact ⟨_, _, rfl, by omega, by omega, by omega, by omega, by omega⟩
  · intro hlt
    rw [if_pos hlt]

/-- C4: `detectHeartRate` returns `none` with fewer than 2 detected peaks
in the filtered green channel; otherwise it rounds
`60 * sampleRate / meanInterval` to an integer BPM, returning it exactly
when it lies in `[40, 180]` and `none` otherwise. -/
theorem detectHeartRate_spec (signal : List ℚ) (frameRate : ℚ) :
    ((findPeaks (bandpassFilter signal (7 / 10) 4 frameRate)).length < 2 →
      detectHeartRate signal frameRate = none) ∧
    (2 ≤ (findPeaks (bandpassFilter signal (7 / 10) 4 frameRate)).length →
      detectHeartRate signal frameRate =
        (if 40 ≤ round ((60 * frameRate) /
              calculateMean (pairDiffs (findPeaks (bandpassFilter signal (7 / 10) 4 frameRate)))) ∧
            round ((60 * frameRate) /
              calculateMean (pairDiffs (findPeaks (bandpassFilter signal (7 / 10) 4 frameRate)))) ≤ 180
         then some (round ((60 * frameRate) /
              calculateMean (pairDiffs (findPeaks (bandpassFilter signal (7 / 10) 4 frameRate)))))
         else none)) ∧
    (∀ b, detectHeartRate signal frameRate = some b → 40 ≤ b ∧ b ≤ 180) := by
  simp only [detectHeartRate]
  refine ⟨fun h2 => by rw [if_pos h2], fun h2 => by rw [if_neg (by omega)], fun b hb => ?_⟩
  by_cases hlen : (findPeaks (bandpassFilter signal (7 / 10) 4 frameRate)).length < 2
  · rw [if_pos hlen] at hb
    exact absurd hb (by simp)
  · rw [if_neg hlen] at hb
    by_cases hband : 40 ≤ round ((60 * frameRate) /
          calculateMean (pairDiffs (findPeaks (bandpassFilter signal (7 / 10) 4 frameRate)))) ∧
        round ((60 * frameRate) /
          calculateMean (pairDiffs (findPeaks (bandpassFilter signal (7 / 10) 4 frameRate)))) ≤ 180
    · rw [if_pos hband] at hb
      cases hb
      exact hband
    · rw [if_neg hband] at hb
      cases hb

/-- C8: `findPeaks` returns a strictly ascending list containing exactly
the interior indices whose value strictly exceeds both neighbours and
the threshold `mean + 0.5 * stdDev`, where `sd` is the exact standard
deviation (`sd ≥ 0` and `sd * sd = variance`). -/
theorem findPeaks_characterization (signal : List ℚ) (sd : ℚ)
    (hsd : 0 ≤ sd ∧ sd * sd = calculateVariance signal) :
    List.Pairwise (· < ·) (findPeaks signal) ∧
    ∀ i : ℕ, i ∈ findPeaks signal ↔
      1 ≤ i ∧ i ≤ signal.length - 2 ∧
      signal.getD (i - 1) 0 < signal.getD i 0 ∧
      signal.getD (i + 1) 0 < signal.getD i 0 ∧
      calculateMean signal + (1 / 2) * sd < signal.getD i 0 := by
  constructor
  · exact (range'_sorted_lt 1 (signal.length - 2)).filter _
  · intro i
    simp only [findPeaks, List.mem_filter, List.mem_range'_1, isPeakCandidate,
      Bool.and_eq_true, decide_eq_true_eq]
    rw [SqrtExpr.ltRat_iff _ _ _ _ sd (by norm_num) hsd.1 hsd.2]
    constructor
    · rintro ⟨⟨h1, h2⟩, ⟨hl, hr⟩, ht⟩
      exact ⟨h1, by omega, hl, hr, ht⟩
    · rintro ⟨h1, h2, hl, hr, ht⟩
      exact ⟨⟨h1, by omega⟩, ⟨hl, hr⟩, ht⟩

/-- C9: in `findPeaksWithMinDistance` the first accepted peak is exactly
the first candidate local maximum above the threshold (the distance test
cannot reject it, since `lastPeakIndex` starts at `-minDistance`), and
each later accepted index exceeds its predecessor by at least
`minDistance`. -/
theorem findPeaksWithMinDistance_spec (signal : List ℚ) (threshold : SqrtExpr)
    (minDistance : ℕ) :
    (findPeaksWithMinDistance signal threshold minDistance).head? =
      ((List.range' 1 (signal.length - 2)).filter
        (fun i => isPeakCandidate signal threshold i)).head? ∧
    List.Chain' (fun a b => a + minDistance ≤ b)
      (findPeaksWithMinDistance signal threshold minDistance) := by
  exact ⟨fpmdGo_head? signal threshold minDistance _,
    (fpmdGo_chain signal threshold minDistance _ _).1⟩

/-- C2 (amended): `detectRespiratoryRate` returns exactly 14 with fewer
than 3 detected peaks; otherwise it keeps only the inter-peak intervals
strictly inside `(0.5 * mean, 1.5 * mean)` (boundary intervals are
discarded), returns 14 if fewer than 2 intervals remain, and otherwise
converts the mean remaining interval to breaths/min clamped into
`[8, 25]`. -/
theorem detectRespiratoryRate_eq_amended (signal : List ℚ) (frameRate : ℚ) :
    detectRespiratoryRate signal frameRate =
      detectRespiratoryRate_amended signal frameRate := by
  simp only [detectRespiratoryRate, detectRespiratoryRate_amended]
  split_ifs <;> omega

/-- C2 counterexample: on `sigBoundary` at 30 Hz the detected breathing
peaks are `[1, 46, 181]`, the inter-peak intervals `[45, 135]` both lie
exactly on the outlier boundaries, so the source discards both (strict
comparisons) and returns the default 14, while the claimed
closed-interval reading keeps both and returns 20. -/
theorem detectRespiratoryRate_claim_counterexample :
    detectRespiratoryRate sigBoundary 30 = 14 ∧
    detectRespiratoryRate_claimed sigBoundary 30 = 20 := by
  constructor
  · with_unfolding_all decide
  · with_unfolding_all decide

theorem slice_eq_map_range' (signal : List ℚ) (w i : ℕ) (hi : i < signal.length) :
    (signal.take (min (signal.length - 1) (i + w) + 1)).drop (i - w) =
      (List.range' (i - w) (min (signal.length - 1) (i + w) + 1 - (i - w))).map
        (fun j => signal.getD j 0) := by
  have h1 : i - w + (min (signal.length - 1) (i + w) + 1 - (i - w)) =
      min (signal.length - 1) (i + w) + 1 := by omega
  have h2 : i - w + (min (signal.length - 1) (i + w) + 1 - (i - w)) ≤ signal.length := by
    omega
  have := take_drop_eq_map_range' signal (i - w)
    (min (signal.length - 1) (i + w) + 1 - (i - w)) h2
  rwa [h1] at this

/-- C6 (amended): `bandpassFilter` preserves length and computes, at each
index, the input value minus the centered moving average over the window
of half-width `floor(sampleRate / lowFreq)` clamped to the series
bounds; the `highFreq` argument is ignored.  (The claim's `round` is
amended to the source's `Math.floor`.) -/
theorem bandpassFilter_spec (signal : List ℚ) (lowFreq highFreq sampleRate : ℚ) :
    bandpassFilter signal lowFreq highFreq sampleRate =
      filterSpecFloor signal lowFreq sampleRate ∧
    (bandpassFilter signal lowFreq highFreq sampleRate).length = signal.length := by
  refine ⟨?_, bandpassFilter_length signal lowFreq highFreq sampleRate⟩
  simp only [bandpassFilter, filterSpecFloor, movingAverageAt, calculateMean]
  apply List.map_congr_left
  intro i hi
  rw [List.mem_range] at hi
  rw [slice_eq_map_range' signal (⌊sampleRate / lowFreq⌋).toNat i hi]

/-- C6 counterexample: with the source's own heart-rate parameters
(`lowFreq = 0.7`, `sampleRate = 30`) the claimed half-width
`round(30 / 0.7) = 43` differs from the source's `floor(30 / 0.7) = 42`,
and on 43 zeros followed by `44` the two filters differ at index 0
(`0` versus `-1`). -/
theorem bandpassFilter_claim_counterexample :
    bandpassFilter (List.replicate 43 (0 : ℚ) ++ [44]) (7 / 10) 4 30 ≠
      filterClaimRound (List.replicate 43 (0 : ℚ) ++ [44]) (7 / 10) 30 := by
  with_unfolding_all decide

theorem jsMean_of_ne_nil (l : List ℚ) (h : l ≠ []) :
    jsMean l = JSVal.num (calculateDC l) := by
  have h0 : l.length ≠ 0 := by simpa [List.length_eq_zero] using h
  have hlen : ((l.length : ℚ)) ≠ 0 := Nat.cast_ne_zero.mpr h0
  simp [jsMean, jsDiv, hlen, calculateDC, calculateMean]

theorem jsCalculateAC_of_ne_nil (l : List ℚ) (h : l ≠ []) :
    jsCalculateAC l = JSVal.num (calculateAC l) := by
  have hmap : l.map (fun x => |x - calculateMean l|) ≠ [] := by simpa using h
  unfold jsCalculateAC
  rw [jsMean_of_ne_nil l h]
  exact jsMean_of_ne_nil _ hmap

/-- C3: for a non-empty frame buffer, `estimateSpO2` returns `none`
exactly when the red-channel or green-channel mean is zero; with both
nonzero it returns `round(110 - 25 * R)` when that lies in `[85, 100]`
and exactly `97` otherwise — never `none`. -/
theorem estimateSpO2_spec (frames : List Frame) (hne : frames ≠ []) :
    (estimateSpO2 frames = none ↔
      calculateDC (frames.map Frame.r) = 0 ∨ calculateDC (frames.map Frame.g) = 0) ∧
    (calculateDC (frames.map Frame.r) ≠ 0 → calculateDC (frames.map Frame.g) ≠ 0 →
      estimateSpO2 frames =
        some (if 85 ≤ round ((110 : ℚ) - 25 *
                ((calculateAC (frames.map Frame.r) / calculateDC (frames.map Frame.r)) /
                 (calculateAC (frames.map Frame.g) / calculateDC (frames.map Frame.g)))) ∧
              round ((110 : ℚ) - 25 *
                ((calculateAC (frames.map Frame.r) / calculateDC (frames.map Frame.r)) /
                 (calculateAC (frames.map Frame.g) / calculateDC (frames.map Frame.g)))) ≤ 100
         then round ((110 : ℚ) - 25 *
                ((calculateAC (frames.map Frame.r) / calculateDC (frames.map Frame.r)) /
                 (calculateAC (frames.map Frame.g) / calculateDC (frames.map Frame.g))))
         else 97)) := by
  have hner : frames.map Frame.r ≠ [] := by simpa using hne
  have hneg : frames.map Frame.g ≠ [] := by simpa using hne
  have hdcr := jsMean_of_ne_nil _ hner
  have hdcg := jsMean_of_ne_nil _ hneg
  have hacr := jsCalculateAC_of_ne_nil _ hner
  have hacg := jsCalculateAC_of_ne_nil _ hneg
  constructor
  · by_cases hz : calculateDC (frames.map Frame.r) = 0 ∨ calculateDC (frames.map Frame.g) = 0
    · have hz' : JSVal.num (calculateDC (frames.map Frame.r)) = JSVal.num 0 ∨
          JSVal.num (calculateDC (frames.map Frame.g)) = JSVal.num 0 := by
        simpa using hz
      simp only [estimateSpO2, hdcr, hdcg, if_pos hz']
      exact iff_of_true trivial hz
    · have hz' : ¬(JSVal.num (calculateDC (frames.map Frame.r)) = JSVal.num 0 ∨
          JSVal.num (calculateDC (frames.map Frame.g)) = JSVal.num 0) := by
        simpa using hz
      simp only [estimateSpO2, hdcr, hdcg, hacr, hacg, if_neg hz']
      constructor
      · intro h
        split at h
        · split_ifs at h <;> simp_all
        · simp_all
      · intro h
        exact absurd h hz
  · intro hr hg
    have hz' : ¬(JSVal.num (calculateDC (frames.map Frame.r)) = JSVal.num 0 ∨
        JSVal.num (calculateDC (frames.map Frame.g)) = JSVal.num 0) := by
      simp [hr, hg]
    simp only [estimateSpO2, hdcr, hdcg, hacr, hacg, if_neg hz']
    have e1 : jsDiv (JSVal.num (calculateAC (frames.map Frame.r)))
        (JSVal.num (calculateDC (frames.map Frame.r))) =
        JSVal.num (calculateAC (frames.map Frame.r) / calculateDC (frames.map Frame.r)) := by
      simp [jsDiv, hr]
    have e2 : jsDiv (JSVal.num (calculateAC (frames.map Frame.g)))
        (JSVal.num (calculateDC (frames.map Frame.g))) =
        JSVal.num (calculateAC (frames.map Frame.g) / calculateDC (frames.map Frame.g)) := by
      simp [jsDiv, hg]
    rw [e1, e2]
    by_cases hb : calculateAC (frames.map Frame.g) / calculateDC (frames.map Frame.g) = 0
    · rw [hb]
      by_cases ha : calculateAC (frames.map Frame.r) / calculateDC (frames.map Frame.r) = 0
      · rw [ha]
        simp [jsDiv, jsMul, jsSub, div_zero]
      · rcases lt_or_gt_of_ne ha with hlt | hgt
        · simp [jsDiv, ha, hlt, not_lt.mpr hlt.le, jsMul, jsSub, div_zero]
        · simp [jsDiv, ha, hgt, not_lt.mpr hgt.le, jsMul, jsSub, div_zero]
    · simp only [jsDiv, if_neg hb, jsMul, jsSub]
      split_ifs <;> rfl
/-- C5: `calculateHealthScore` returns 0 when all five live fields are
null and the historical record is empty, 100 at the ideal values
HR 72 / SpO2 98 / RR 16 / Temp 36.8 / BP 110 and 75, and in every case
equals the rounded mean of the included sub-scores, an integer in
`[0, 100]`. -/
theorem calculateHealthScore_spec :
    calculateHealthScore allNullResults emptyHistorical = 0 ∧
    calculateHealthScore idealResults emptyHistorical = 100 ∧
    ∀ res hist,
      calculateHealthScore res hist =
        (if (scoresList res hist).length = 0 then 0
         else round (((scoresList res hist).sum : ℚ) / ((scoresList res hist).length : ℚ))) ∧
      0 ≤ calculateHealthScore res hist ∧ calculateHealthScore res hist ≤ 100 := by
  refine ⟨by with_unfolding_all decide, by with_unfolding_all decide,
    fun res hist => ⟨rfl, calculateHealthScore_bounds res hist⟩⟩

theorem findPeaks_short (signal : List ℚ) (h : signal.length ≤ 1) :
    findPeaks signal = [] := by
  have h2 : signal.length - 2 = 0 := by omega
  simp [findPeaks, h2]

theorem findPeaksWithMinDistance_short (signal : List ℚ) (threshold : SqrtExpr)
    (minDistance : ℕ) (h : signal.length ≤ 1) :
    findPeaksWithMinDistance signal threshold minDistance = [] := by
  have h2 : signal.length - 2 = 0 := by omega
  simp [findPeaksWithMinDistance, h2, fpmdGo]

/-- C7 counterexample: on the empty frame buffer the source's channel
means are `0/0 = NaN`; NaN propagates through `toFixed`, `Math.min` and
`Math.max`, so `estimateTemperature` returns NaN — not a clamped value
as the claim states — and the `=== 0` test is false for NaN, so
`estimateSpO2` falls through and returns 97 rather than null.  A single
all-zero frame also yields a NaN temperature. -/
theorem estimators_short_series_counterexample :
    estimateTemperature [] = JSVal.nan ∧
    estimateTemperature [{ r := 0, g := 0, b := 0 }] = JSVal.nan ∧
    estimateSpO2 [] = some 97 := by
  refine ⟨?_, ?_, ?_⟩ <;> with_unfolding_all decide

/-- C7 (amended): on frame buffers of length 0 or 1 every estimator
returns its null, documented-default or degenerate outcome without
throwing: heart rate `none`; SpO2 `none` or the default `some 97` (97
also on the empty buffer, whose NaN means fail the `=== 0` test);
respiratory rate exactly `14`; blood pressure `(none, none)`;
temperature a value clamped into `[35.5, 38.5]` for a single frame
whose red or green value is nonzero, and NaN on the empty buffer or a
single frame with both values zero — for every `rmssd`, both random
draws and every frame rate.  All estimators are total Lean functions,
so termination without throwing holds by construction. -/
theorem estimators_short_series_amended (frames : List Frame)
    (rmssd rand1 rand2 frameRate : ℚ) (hlen : frames.length ≤ 1) :
    detectHeartRate (frames.map Frame.g) frameRate = none ∧
    (estimateSpO2 frames = none ∨ estimateSpO2 frames = some 97) ∧
    detectRespiratoryRate (frames.map Frame.g) frameRate = 14 ∧
    ((frames = [] ∨ ∃ f, frames = [f] ∧ f.r = 0 ∧ f.g = 0) →
      estimateTemperature frames = JSVal.nan) ∧
    ((∃ f, frames = [f] ∧ (f.r ≠ 0 ∨ f.g ≠ 0)) →
      ∃ t : ℚ, estimateTemperature frames = JSVal.num t ∧
        (71 / 2 : ℚ) ≤ t ∧ t ≤ 77 / 2) ∧
    estimateBloodPressure (frames.map Frame.g) rmssd rand1 rand2 frameRate =
      (none, none) := by
  have hsig : (frames.map Frame.g).length ≤ 1 := by simpa using hlen
  have hfilt : ∀ lf hf : ℚ,
      (bandpassFilter (frames.map Frame.g) lf hf frameRate).length ≤ 1 := by
    intro lf hf
    rw [bandpassFilter_length]
    exact hsig
  refine ⟨?_, ?_, ?_, ?_, ?_, ?_⟩
  · simp only [detectHeartRate, findPeaks_short _ (hfilt (7 / 10) 4)]
    rfl
  · match frames, hlen with
    | [], _ =>
      right
      with_unfolding_all decide
    | [f], _ =>
      by_cases hfr : f.r = 0
      · left
        simp [estimateSpO2, jsMean, jsDiv, hfr]
      · by_cases hfg : f.g = 0
        · left
          simp [estimateSpO2, jsMean, jsDiv, hfr, hfg]
        · right
          simp [estimateSpO2, jsCalculateAC, jsMean, jsDiv, jsMul, jsSub, hfr, hfg]
  · simp only [detectRespiratoryRate,
      findPeaksWithMinDistance_short _ _ _ (hfilt (1 / 5) (1 / 2))]
    rfl
  · rintro (rfl | ⟨f, rfl, hfr, hfg⟩)
    · with_unfolding_all decide
    · simp [estimateTemperature, jsMean, jsDiv, jsAdd, jsSub, jsMul, jsToFixed1,
        jsMinC, jsMaxC, hfr, hfg]
  · rintro ⟨f, rfl, hf⟩
    by_cases hfg : f.g = 0
    · have hfr : f.r ≠ 0 := by tauto
      rcases lt_or_gt_of_ne hfr with hlt | hgt
      · refine ⟨71 / 2, ?_, by norm_num, by norm_num⟩
        simp [estimateTemperature, jsMean, jsDiv, jsAdd, jsSub, jsMul, jsToFixed1,
          jsMinC, jsMaxC, hfr, hfg, hlt, not_lt.mpr hlt.le]
      · refine ⟨77 / 2, ?_, by norm_num, by norm_num⟩
        simp [estimateTemperature, jsMean, jsDiv, jsAdd, jsSub, jsMul, jsToFixed1,
          jsMinC, jsMaxC, hfr, hfg, hgt, not_lt.mpr hgt.le]
        norm_num
    · refine ⟨max (71 / 2) (min (77 / 2)
        ((round ((36 + (f.r / f.g - 1) * 2) * 10) : ℚ) / 10)), ?_,
        le_max_left _ _, max_le (by norm_num) (min_le_left _ _)⟩
      simp [estimateTemperature, jsMean, jsDiv, jsAdd, jsSub, jsMul, jsToFixed1,
        jsMinC, jsMaxC, hfg]
  · simp only [estimateBloodPressure, findPeaks_short _ (hfilt (7 / 10) 4)]
    rfl

/-- C10: in `calculateHealthScore` inclusion is decided by JavaScript
truthiness, so a live field whose value is `0` is scored exactly as if
the field (and its fallback) were absent, and a historical fallback
value of `0` is never substituted for a null live estimate — for each of
the six stored components. -/
theorem calculateHealthScore_truthiness (res : VitalResults) (hist : HistoricalVitals) :
    (res.heartRate = some 0 → calculateHealthScore res hist =
      calculateHealthScore { res with heartRate := none } { hist with heart_rate := none }) ∧
    (res.spo2 = some 0 → calculateHealthScore res hist =
      calculateHealthScore { res with spo2 := none } { hist with spo2 := none }) ∧
    (res.respiratoryRate = some 0 → calculateHealthScore res hist =
      calculateHealthScore { res with respiratoryRate := none }
        { hist with respiratory_rate := none }) ∧
    (res.temperature = some 0 → calculateHealthScore res hist =
      calculateHealthScore { res with temperature := none } { hist with temperature := none }) ∧
    (res.systolic = some 0 → calculateHealthScore res hist =
      calculateHealthScore { res with systolic := none }
        { hist with blood_pressure_systolic := none }) ∧
    (res.diastolic = some 0 → calculateHealthScore res hist =
      calculateHealthScore { res with diastolic := none }
        { hist with blood_pressure_diastolic := none }) ∧
    (hist.heart_rate = some 0 → calculateHealthScore res hist =
      calculateHealthScore res { hist with heart_rate := none }) ∧
    (hist.spo2 = some 0 → calculateHealthScore res hist =
      calculateHealthScore res { hist with spo2 := none }) ∧
    (hist.respiratory_rate = some 0 → calculateHealthScore res hist =
      calculateHealthScore res { hist with respiratory_rate := none }) ∧
    (hist.temperature = some 0 → calculateHealthScore res hist =
      calculateHealthScore res { hist with temperature := none }) ∧
    (hist.blood_pressure_systolic = some 0 → calculateHealthScore res hist =
      calculateHealthScore res { hist with blood_pressure_systolic := none }) ∧
    (hist.blood_pressure_diastolic = some 0 → calculateHealthScore res hist =
      calculateHealthScore res { hist with blood_pressure_diastolic := none }) := by
  have hbpl : ∀ x : Option ℚ, bpContrib (some 0) x = [] := by
    intro x; cases x <;> simp [bpContrib]
  have hbpr : ∀ x : Option ℚ, bpContrib x (some 0) = [] := by
    intro x; cases x <;> simp [bpContrib]
  have hbpn : ∀ x : Option ℚ, bpContrib none x = [] := by
    intro x; cases x <;> simp [bpContrib]
  have hbpm : ∀ x : Option ℚ, bpContrib x none = [] := by
    intro x; cases x <;> simp [bpContrib]
  refine ⟨?_, ?_, ?_, ?_, ?_, ?_, ?_, ?_, ?_, ?_, ?_, ?_⟩ <;>
    · intro h
      simp [calculateHealthScore, scoresList, resolveVital, contrib, truthy, h,
        hbpl, hbpr, hbpn, hbpm]

/-- Witness for C1: `sigPeaks8` has 3 detected peaks and yields an
in-range reading; the empty signal yields `(none, none)`. -/
theorem estimateBloodPressure_spec_witness :
    (∃ s d, estimateBloodPressure sigPeaks8 0 (1 / 2) (1 / 2) 30 = (some s, some d) ∧
      95 ≤ s ∧ s ≤ 145 ∧ 60 ≤ d ∧ d ≤ 95 ∧ d ≤ s - 25) ∧
    estimateBloodPressure [] 0 (1 / 2) (1 / 2) 30 = (none, none) :=
  ⟨(estimateBloodPressure_spec sigPeaks8 0 (1 / 2) (1 / 2) 30).1
      (by with_unfolding_all decide),
   (estimateBloodPressure_spec [] 0 (1 / 2) (1 / 2) 30).2
      (by with_unfolding_all decide)⟩

/-- Witness for C3: a single frame with nonzero red and green means. -/
theorem estimateSpO2_spec_witness :
    (estimateSpO2 [frameRG] = none ↔
      calculateDC ([frameRG].map Frame.r) = 0 ∨ calculateDC ([frameRG].map Frame.g) = 0) ∧
    estimateSpO2 [frameRG] =
      some (if 85 ≤ round ((110 : ℚ) - 25 *
              ((calculateAC ([frameRG].map Frame.r) / calculateDC ([frameRG].map Frame.r)) /
               (calculateAC ([frameRG].map Frame.g) / calculateDC ([frameRG].map Frame.g)))) ∧
            round ((110 : ℚ) - 25 *
              ((calculateAC ([frameRG].map Frame.r) / calculateDC ([frameRG].map Frame.r)) /
               (calculateAC ([frameRG].map Frame.g) / calculateDC ([frameRG].map Frame.g)))) ≤ 100
       then round ((110 : ℚ) - 25 *
              ((calculateAC ([frameRG].map Frame.r) / calculateDC ([frameRG].map Frame.r)) /
               (calculateAC ([frameRG].map Frame.g) / calculateDC ([frameRG].map Frame.g))))
       else 97) :=
  ⟨(estimateSpO2_spec [frameRG] (by simp)).1,
   (estimateSpO2_spec [frameRG] (by simp)).2
      (by with_unfolding_all decide) (by with_unfolding_all decide)⟩

/-- Witness for C4: one-peak input yields `none`; `sigPeaks5` at 2 Hz
yields `some 60`, which the theorem bounds into `[40, 180]`. -/
theorem detectHeartRate_spec_witness :
    detectHeartRate [(0 : ℚ), 4, 0] 30 = none ∧ (40 ≤ (60 : ℤ) ∧ (60 : ℤ) ≤ 180) :=
  ⟨(detectHeartRate_spec [(0 : ℚ), 4, 0] 30).1 (by with_unfolding_all decide),
   (detectHeartRate_spec sigPeaks5 2).2.2 60 (by with_unfolding_all decide)⟩

/-- Witness for C7 (amended): the empty frame buffer exercises the NaN
temperature branch and the null/default outcomes; a frame with nonzero
red and green values exercises the clamped-temperature branch. -/
theorem estimators_short_series_amended_witness :
    detectHeartRate (([] : List Frame).map Frame.g) 30 = none ∧
    (estimateSpO2 ([] : List Frame) = none ∨ estimateSpO2 ([] : List Frame) = some 97) ∧
    detectRespiratoryRate (([] : List Frame).map Frame.g) 30 = 14 ∧
    estimateTemperature [] = JSVal.nan ∧
    (∃ t : ℚ, estimateTemperature [frameRG] = JSVal.num t ∧
      (71 / 2 : ℚ) ≤ t ∧ t ≤ 77 / 2) ∧
    estimateBloodPressure (([] : List Frame).map Frame.g) 0 (1 / 2) (1 / 2) 30 =
      (none, none) :=
  ⟨(estimators_short_series_amended [] 0 (1 / 2) (1 / 2) 30 (by decide)).1,
   (estimators_short_series_amended [] 0 (1 / 2) (1 / 2) 30 (by decide)).2.1,
   (estimators_short_series_amended [] 0 (1 / 2) (1 / 2) 30 (by decide)).2.2.1,
   (estimators_short_series_amended [] 0 (1 / 2) (1 / 2) 30 (by decide)).2.2.2.1
     (Or.inl rfl),
   (estimators_short_series_amended [frameRG] 0 (1 / 2) (1 / 2) 30
       (by decide)).2.2.2.2.1 ⟨frameRG, rfl, by with_unfolding_all decide⟩,
   (estimators_short_series_amended [] 0 (1 / 2) (1 / 2) 30 (by decide)).2.2.2.2.2⟩

/-- Witness for C8: `sigPeaks8` has variance 4, so its standard
deviation is exactly 2. -/
theorem findPeaks_characterization_witness :
    List.Pairwise (· < ·) (findPeaks sigPeaks8) ∧
    (3 ∈ findPeaks sigPeaks8 ↔
      1 ≤ 3 ∧ 3 ≤ sigPeaks8.length - 2 ∧
      sigPeaks8.getD (3 - 1) 0 < sigPeaks8.getD 3 0 ∧
      sigPeaks8.getD (3 + 1) 0 < sigPeaks8.getD 3 0 ∧
      calculateMean sigPeaks8 + (1 / 2) * 2 < sigPeaks8.getD 3 0) :=
  ⟨(findPeaks_characterization sigPeaks8 2
      ⟨by norm_num, by with_unfolding_all decide⟩).1,
   (findPeaks_characterization sigPeaks8 2
      ⟨by norm_num, by with_unfolding_all decide⟩).2 3⟩

/-- Witness for C10: all live and historical fields present but 0. -/
theorem calculateHealthScore_truthiness_witness :
    (calculateHealthScore zeroResults zeroHistorical =
      calculateHealthScore { zeroResults with heartRate := none }
        { zeroHistorical with heart_rate := none }) ∧
    (calculateHealthScore zeroResults zeroHistorical =
      calculateHealthScore { zeroResults with spo2 := none }
        { zeroHistorical with spo2 := none }) ∧
    (calculateHealthScore zeroResults zeroHistorical =
      calculateHealthScore { zeroResults with respiratoryRate := none }
        { zeroHistorical with respiratory_rate := none }) ∧
    (calculateHealthScore zeroResults zeroHistorical =
      calculateHealthScore { zeroResults with temperature := none }
        { zeroHistorical with temperature := none }) ∧
    (calculateHealthScore zeroResults zeroHistorical =
      calculateHealthScore { zeroResults with systolic := none }
        { zeroHistorical with blood_pressure_systolic := none }) ∧
    (calculateHealthScore zeroResults zeroHistorical =
      calculateHealthScore { zeroResults with diastolic := none }
        { zeroHistorical with blood_pressure_diastolic := none }) ∧
    (calculateHealthScore zeroResults zeroHistorical =
      calculateHealthScore zeroResults { zeroHistorical with heart_rate := none }) ∧
    (calculateHealthScore zeroResults zeroHistorical =
      calculateHealthScore zeroResults { zeroHistorical with spo2 := none }) ∧
    (calculateHealthScore zeroResults zeroHistorical =
      calculateHealthScore zeroResults { zeroHistorical with respiratory_rate := none }) ∧
    (calculateHealthScore zeroResults zeroHistorical =
      calculateHealthScore zeroResults { zeroHistorical with temperature := none }) ∧
    (calculateHealthScore zeroResults zeroHistorical =
      calculateHealthScore zeroResults
        { zeroHistorical with blood_pressure_systolic := none }) ∧
    (calculateHealthScore zeroResults zeroHistorical =
      calculateHealthScore zeroResults
        { zeroHistorical with blood_pressure_diastolic := none }) :=
  ⟨(calculateHealthScore_truthiness zeroResults zeroHistorical).1 rfl,
   (calculateHealthScore_truthiness zeroResults zeroHistorical).2.1 rfl,
   (calculateHealthScore_truthiness zeroResults zeroHistorical).2.2.1 rfl,
   (calculateHealthScore_truthiness zeroResults zeroHistorical).2.2.2.1 rfl,
   (calculateHealthScore_truthiness zeroResults zeroHistorical).2.2.2.2.1 rfl,
   (calculateHealthScore_truthiness zeroResults zeroHistorical).2.2.2.2.2.1 rfl,
   (calculateHealthScore_truthiness zeroResults zeroHistorical).2.2.2.2.2.2.1 rfl,
   (calculateHealthScore_truthiness zeroResults zeroHistorical).2.2.2.2.2.2.2.1 rfl,
   (calculateHealthScore_truthiness zeroResults zeroHistorical).2.2.2.2.2.2.2.2.1 rfl,
   (calculateHealthScore_truthiness zeroResults zeroHistorical).2.2.2.2.2.2.2.2.2.1 rfl,
   (calculateHealthScore_truthiness zeroResults zeroHistorical).2.2.2.2.2.2.2.2.2.2.1 rfl,
   (calculateHealthScore_truthiness zeroResults zeroHistorical).2.2.2.2.2.2.2.2.2.2.2 rfl⟩
